import Mathlib

/-!
Verification of the drug-food interaction prediction core (src/main.py).

Python dicts of numeric attributes are embedded as association lists
`List (String × ℚ)` where lookup returns the first binding of a key
(Python dict keys are unique, so first-match lookup agrees with dict
lookup, and it also models `.get` with a default).  Python floats are
embedded as rationals: every numeric literal the claims depend on
(0.65, 0.68, 0.75, 100, 150, 0.6, 0.7, 0.92) is exact, and the code
performs no float arithmetic beyond `max` and comparisons, whose
results on these values coincide with the rational ones.

Randomness (`np.random.random`, `np.random.choice`,
`np.random.uniform(0.6, 0.92)`) is embedded as an explicit oracle
argument `RandOracle` supplying the three draws; theorems constrain the
draws by the documented distributions where needed.
-/

namespace FoodDrug

/-- A Python dict of named numeric attributes, as an association list. -/
abbrev Attrs := List (String × ℚ)

/-- Dict lookup: `d[k]` as an `Option`, first binding wins. -/
def lookup (d : Attrs) (k : String) : Option ℚ :=
  (d.find? (fun p => p.1 == k)).map Prod.snd

/-- Python `d.get(k, v)`. -/
def getD (d : Attrs) (k : String) (v : ℚ) : ℚ :=
  (lookup d k).getD v

/-- Feature-vector assembly loop of `predict_interaction`
(src/main.py lines 383-390): for each name in the feature order, take
the drug value if the name is a drug key, else the food value if it is
a food key, else 0.0. -/
def buildFeatures (drug food : Attrs) : List String → List ℚ
  | [] => []
  | name :: rest =>
      (match lookup drug name with
       | some v => v
       | none =>
         match lookup food name with
         | some v => v
         | none => 0) :: buildFeatures drug food rest

/-- Render a natural number of hundredths as a decimal string,
e.g. `75 ↦ "0.75"`, `105 ↦ "1.05"`. -/
def fmt2Nat (m : ℕ) : String :=
  toString (m / 100) ++ "." ++ (if m % 100 < 10 then "0" else "") ++ toString (m % 100)

/-- Model of Python `f"{confidence:.2f}"`: round to the nearest
hundredth and render with exactly two decimal places. -/
def fmt2 (q : ℚ) : String :=
  let n : ℤ := ⌊q * 100 + 1/2⌋
  if n < 0 then "-" ++ fmt2Nat n.natAbs else fmt2Nat n.natAbs

/-- `get_explanation` (src/main.py lines 448-458): one fixed template
per known label with the confidence interpolated to two decimals, and
a generic template for any other label.  The Python dict literal has
distinct keys, so dict lookup is equivalent to this chain of equality
tests. -/
def get_explanation (effect : String) (confidence : ℚ) : String :=
  if effect == "harmful" then
    "Significant interaction detected (confidence: " ++ fmt2 confidence ++ "). This food may interfere with drug efficacy or cause adverse effects. Consult your healthcare provider immediately."
  else if effect == "negative" then
    "Minor negative interaction possible (confidence: " ++ fmt2 confidence ++ "). The food may slightly reduce drug effectiveness or absorption."
  else if effect == "no effect" then
    "No significant interaction expected (confidence: " ++ fmt2 confidence ++ "). The food is unlikely to affect drug absorption or metabolism significantly."
  else if effect == "positive" then
    "Beneficial interaction detected (confidence: " ++ fmt2 confidence ++ "). This food may enhance drug absorption, stability, or therapeutic effects."
  else if effect == "possible" then
    "Potential interaction identified (confidence: " ++ fmt2 confidence ++ "). Monitor for changes in drug effectiveness or side effects."
  else
    "Interaction analysis completed with " ++ fmt2 confidence ++ " confidence."

/-- The result dict `{'effect', 'confidence', 'explanation'}` returned
by `predict_interaction` / `get_fallback_prediction`. -/
structure Prediction where
  effect : String
  confidence : ℚ
  explanation : String
deriving DecidableEq, Repr

/-- The three random draws `get_fallback_prediction` can make:
`r` models `np.random.random()` (in `[0,1)`), `effect` the value of
`np.random.choice(effects)`, `conf` the value of
`np.random.uniform(0.6, 0.92)` (in `[0.6, 0.92)`). -/
structure RandOracle where
  r : ℚ
  effect : String
  conf : ℚ

/-- The candidate labels of the randomized override
(src/main.py line 437). -/
def fallbackEffects : List String := ["no effect", "possible", "positive", "harmful"]

/-- `get_fallback_prediction` (src/main.py lines 420-446), with the
three random draws supplied by the oracle.  The rule sequence is kept
exactly: start at ("no effect", 0.75); if `Vitamin_K_ug > 100` set
("possible", 0.68); if `Calcium > 150` set the label to "possible"
when it is still "no effect" and the confidence to
`max(0.65, confidence)`; finally, when `r > 0.7`, replace both by the
random draws. -/
def get_fallback_prediction (_drug_descriptors food_nutrients : Attrs)
    (o : RandOracle) : Prediction :=
  let effect0 := "no effect"
  let confidence0 : ℚ := 75/100
  let effect1 := if getD food_nutrients "Vitamin_K_ug" 0 > 100 then "possible" else effect0
  let confidence1 := if getD food_nutrients "Vitamin_K_ug" 0 > 100 then (68:ℚ)/100 else confidence0
  let effect2 :=
    if getD food_nutrients "Calcium" 0 > 150 then
      (if effect1 = "no effect" then "possible" else effect1)
    else effect1
  let confidence2 :=
    if getD food_nutrients "Calcium" 0 > 150 then max (65/100) confidence1 else confidence1
  let effectF := if o.r > 7/10 then o.effect else effect2
  let confidenceF := if o.r > 7/10 then o.conf else confidence2
  { effect := effectF
    confidence := confidenceF
    explanation := get_explanation effectF confidenceF }

/-- One entry of the raw USDA `foodNutrients` list as consumed by
`extract_comprehensive_nutrients`: `id` models the nested
`nutrient.id` (`none` when the key is absent or null), `amount` models
the `amount` field (`none` models a JSON null; an absent `amount` key
is read as 0.0 by `.get('amount', 0.0)` in the source and is modelled
as `some 0`). -/
structure FoodNutrient where
  id : Option ℕ
  amount : Option ℚ
deriving DecidableEq, Repr

/-- The membership test `food_nutrient.get('nutrient', {}).get('id') in
nutrient_ids` (src/main.py line 329); a missing id never matches. -/
def idMatches (fn : FoodNutrient) (ids : List ℕ) : Bool :=
  match fn.id with
  | some i => ids.contains i
  | none => false

/-- Inner loop of `extract_comprehensive_nutrients` (src/main.py lines
327-334): `value` starts at 0.0; at the first record entry whose id is
among the attribute's alias ids, the amount is taken when non-null and
the loop breaks regardless (the `break` sits outside the null check),
so later matching entries are never consulted. -/
def extractValue (ids : List ℕ) : List FoodNutrient → ℚ
  | [] => 0
  | fn :: rest =>
      if idMatches fn ids then
        match fn.amount with
        | some a => a
        | none => 0
      else extractValue ids rest

/-- The `nutrient_map` literal of `extract_comprehensive_nutrients`
(src/main.py lines 293-322): 21 attribute names, each with its list of
acceptable USDA nutrient ids in declared priority order. -/
def nutrient_map : List (String × List ℕ) :=
  [ ("Fat", [1004]),
    ("Carbohydrates", [1005]),
    ("Protein", [1003]),
    ("Vitamin_C_mg", [1162]),
    ("Vitamin_D_ug", [1114]),
    ("Vitamin_B12_ug", [1178]),
    ("Vitamin_B6_mg", [1175]),
    ("Vitamin_A_ug", [1106, 1104]),
    ("Vitamin_E_mg", [1109]),
    ("Vitamin_K_ug", [1185]),
    ("Folate_ug", [1177, 1186]),
    ("Calcium", [1087]),
    ("Iron", [1089]),
    ("Magnesium", [1090]),
    ("Potassium", [1092]),
    ("Sodium", [1093]),
    ("Zinc", [1095]),
    ("Saturated_Fat_g", [1258]),
    ("Monounsaturated_Fat_g", [1292]),
    ("Polyunsaturated_Fat_g", [1293]),
    ("Cholesterol_mg", [1253]) ]

/-- `extract_comprehensive_nutrients` (src/main.py lines 290-337):
one output binding per `nutrient_map` entry, in declaration order. -/
def extract_comprehensive_nutrients (food_nutrients : List FoodNutrient) : Attrs :=
  nutrient_map.map (fun p => (p.1, extractValue p.2 food_nutrients))

/-- Alias-priority extraction as the spec words it (for the refinement
comparison in C4): for each alias id in the declared priority order,
look for a record entry carrying that id, and return the first
non-null amount so found, else 0.0. -/
def extractValuePriority (rec : List FoodNutrient) : List ℕ → ℚ
  | [] => 0
  | i :: rest =>
      match rec.find? (fun fn => fn.id == some i) with
      | some fn =>
          match fn.amount with
          | some a => a
          | none => extractValuePriority rec rest
      | none => extractValuePriority rec rest

/-- The four nutrient-category name lists reported by the
`/api/nutrients/list` endpoint (src/main.py lines 556-567). -/
def macronutrients : List String := ["Fat", "Carbohydrates", "Protein"]

/-- Vitamin attribute names (src/main.py lines 558-561). -/
def vitamins : List String :=
  ["Vitamin_C_mg", "Vitamin_D_ug", "Vitamin_B12_ug", "Vitamin_B6_mg",
   "Vitamin_A_ug", "Vitamin_E_mg", "Vitamin_K_ug", "Folate_ug"]

/-- Mineral attribute names (src/main.py line 562). -/
def minerals : List String :=
  ["Calcium", "Iron", "Magnesium", "Potassium", "Sodium", "Zinc"]

/-- Fat breakdown and cholesterol attribute names
(src/main.py lines 563-566). -/
def fat_breakdown : List String :=
  ["Saturated_Fat_g", "Monounsaturated_Fat_g",
   "Polyunsaturated_Fat_g", "Cholesterol_mg"]

/-- The `loaded_models` bundle: each of the three joblib artifacts may
be missing.  The artifacts are opaque to this core, so they are
embedded abstractly: the model maps a feature vector to the pair of
arg-max class index and maximum probability
(`predict_proba` + `argmax`, src/main.py lines 400-402), or raises;
the label decoder maps a class index to a label
(`inverse_transform`, line 405), or raises (e.g. index out of range).
`Except.error` models a raised Python exception, which the `try` block
of `predict_interaction` catches. -/
structure ClassifierBundle where
  xgb_model : Option (List ℚ → Except String (ℕ × ℚ))
  label_encoder : Option (ℕ → Except String String)
  feature_order : Option (List String)

/-- Feature-order selection of `predict_interaction` (src/main.py
lines 376-380): the loaded order when present, else drug keys followed
by food keys in insertion order. -/
def featureOrderOf (b : ClassifierBundle) (drug food : Attrs) : List String :=
  b.feature_order.getD (drug.map Prod.fst ++ food.map Prod.fst)

/-- `predict_interaction` (src/main.py lines 372-418): assemble the
feature vector; when both model and label decoder are loaded, invoke
them and build the result from the decoded label and confidence; when
either is missing, or either invocation raises, return the fallback
prediction (the surrounding `try`/`except` routes every exception to
`get_fallback_prediction`). -/
def predict_interaction (b : ClassifierBundle) (drug food : Attrs)
    (o : RandOracle) : Prediction :=
  let features := buildFeatures drug food (featureOrderOf b drug food)
  match b.xgb_model, b.label_encoder with
  | some model, some enc =>
      match model features with
      | Except.ok (idx, conf) =>
          match enc idx with
          | Except.ok eff =>
              { effect := eff
                confidence := conf
                explanation := get_explanation eff conf }
          | Except.error _ => get_fallback_prediction drug food o
      | Except.error _ => get_fallback_prediction drug food o
  | _, _ => get_fallback_prediction drug food o

end FoodDrug

namespace FoodDrug

/-- C1: the assembled feature vector has length `len(feature_order)`,
and entry `i` is the drug value of `feature_order[i]` when that name is
a drug key (so collisions resolve to the drug value), else the food
value when it is a food key, else 0.0. -/
theorem assembled_vector_spec (feature_order : List String) (drug food : Attrs) :
    (buildFeatures drug food feature_order).length = feature_order.length ∧
    ∀ i name, feature_order.get? i = some name →
      (buildFeatures drug food feature_order).get? i =
        some (match lookup drug name, lookup food name with
              | some dv, _ => dv
              | none, some fv => fv
              | none, none => 0) := by
  induction feature_order with
  | nil =>
      refine ⟨rfl, ?_⟩
      intro i name h
      simp [List.get?] at h
  | cons hd tl ih =>
      refine ⟨?_, ?_⟩
      · simpa [buildFeatures] using ih.1
      · intro i name h
        cases i with
        | zero =>
            have hname : hd = name := by simpa [List.get?] using h
            rw [← hname]
            cases hdr : lookup drug hd with
            | some dv => simp [buildFeatures, List.get?, hdr]
            | none =>
                cases hfr : lookup food hd with
                | some fv => simp [buildFeatures, List.get?, hdr, hfr]
                | none => simp [buildFeatures, List.get?, hdr, hfr]
        | succ j =>
            have := ih.2 j name (by simpa [List.get?] using h)
            simpa [buildFeatures, List.get?] using this

/-- Witness for C1 at a concrete order and concrete drug/food maps,
including a name collision ("X" in both maps resolves to the drug
value 1) and a missing name ("Z" ↦ 0). -/
theorem assembled_vector_spec_witness :
    (buildFeatures [("X", 1)] [("X", 2), ("Y", 3)] ["X", "Y", "Z"]).get? 0 = some 1 ∧
    (buildFeatures [("X", 1)] [("X", 2), ("Y", 3)] ["X", "Y", "Z"]).get? 1 = some 3 ∧
    (buildFeatures [("X", 1)] [("X", 2), ("Y", 3)] ["X", "Y", "Z"]).get? 2 = some 0 := by
  refine ⟨?_, ?_, ?_⟩
  · have h := (assembled_vector_spec ["X", "Y", "Z"] [("X", 1)] [("X", 2), ("Y", 3)]).2
      0 "X" (by decide)
    simpa [lookup] using h
  · have h := (assembled_vector_spec ["X", "Y", "Z"] [("X", 1)] [("X", 2), ("Y", 3)]).2
      1 "Y" (by decide)
    simpa [lookup] using h
  · have h := (assembled_vector_spec ["X", "Y", "Z"] [("X", 1)] [("X", 2), ("Y", 3)]).2
      2 "Z" (by decide)
    simpa [lookup] using h

/-- When the random draw does not trigger the override (`r ≤ 0.7`),
the fallback result is determined by the two thresholds alone. -/
theorem fallback_deterministic_char (drug food : Attrs) (o : RandOracle)
    (h : o.r ≤ 7/10) :
    ((get_fallback_prediction drug food o).effect,
     (get_fallback_prediction drug food o).confidence) =
      if getD food "Vitamin_K_ug" 0 > 100 then ("possible", (68:ℚ)/100)
      else if getD food "Calcium" 0 > 150 then ("possible", (75:ℚ)/100)
      else ("no effect", (75:ℚ)/100) := by
  have hr : ¬ o.r > 7/10 := not_lt.mpr h
  by_cases hvk : getD food "Vitamin_K_ug" 0 > 100
  · by_cases hca : getD food "Calcium" 0 > 150
    · simp only [get_fallback_prediction, if_pos hvk, if_pos hca, if_neg hr]
      norm_num
    · simp only [get_fallback_prediction, if_pos hvk, if_neg hca, if_neg hr]
  · by_cases hca : getD food "Calcium" 0 > 150
    · simp only [get_fallback_prediction, if_neg hvk, if_pos hca, if_neg hr]
      norm_num
    · simp only [get_fallback_prediction, if_neg hvk, if_neg hca, if_neg hr]

/-- C2: absent the randomized override, the fallback scorer starts at
("no effect", 0.75); whenever `Vitamin_K_ug > 100` it yields
("possible", 0.68); on `{Vitamin_K_ug: 150, Calcium: 50}` it yields
("possible", 0.68) and on `{Vitamin_K_ug: 0, Calcium: 0}` it yields
("no effect", 0.75). -/
theorem fallback_rule_order (drug : Attrs) (o : RandOracle) (h : o.r ≤ 7/10) :
    (∀ food : Attrs, getD food "Vitamin_K_ug" 0 > 100 →
      (get_fallback_prediction drug food o).effect = "possible" ∧
      (get_fallback_prediction drug food o).confidence = 68/100) ∧
    (get_fallback_prediction drug [("Vitamin_K_ug", 150), ("Calcium", 50)] o).effect
        = "possible" ∧
    (get_fallback_prediction drug [("Vitamin_K_ug", 150), ("Calcium", 50)] o).confidence
        = 68/100 ∧
    (get_fallback_prediction drug [("Vitamin_K_ug", 0), ("Calcium", 0)] o).effect
        = "no effect" ∧
    (get_fallback_prediction drug [("Vitamin_K_ug", 0), ("Calcium", 0)] o).confidence
        = 75/100 := by
  have h1 := fallback_deterministic_char drug
    [("Vitamin_K_ug", 150), ("Calcium", 50)] o h
  rw [show getD [("Vitamin_K_ug", 150), ("Calcium", 50)] "Vitamin_K_ug" 0 = 150
        from rfl] at h1
  rw [if_pos (by norm_num : (150:ℚ) > 100)] at h1
  have h2 := fallback_deterministic_char drug
    [("Vitamin_K_ug", 0), ("Calcium", 0)] o h
  rw [show getD [("Vitamin_K_ug", 0), ("Calcium", 0)] "Vitamin_K_ug" 0 = 0
        from rfl] at h2
  rw [show getD [("Vitamin_K_ug", 0), ("Calcium", 0)] "Calcium" 0 = 0
        from rfl] at h2
  rw [if_neg (by norm_num : ¬ (0:ℚ) > 100),
      if_neg (by norm_num : ¬ (0:ℚ) > 150)] at h2
  refine ⟨fun food hvk => ?_, congrArg Prod.fst h1, congrArg Prod.snd h1,
    congrArg Prod.fst h2, congrArg Prod.snd h2⟩
  have hc := fallback_deterministic_char drug food o h
  rw [if_pos hvk] at hc
  exact ⟨congrArg Prod.fst hc, congrArg Prod.snd hc⟩

/-- Witness for C2 with a concrete oracle whose draw 0.5 ≤ 0.7 does
not trigger the override. -/
theorem fallback_rule_order_witness :
    (get_fallback_prediction [] [("Vitamin_K_ug", 150), ("Calcium", 50)]
        ⟨1/2, "harmful", 3/5⟩).effect = "possible" ∧
    (get_fallback_prediction [] [("Vitamin_K_ug", 0), ("Calcium", 0)]
        ⟨1/2, "harmful", 3/5⟩).confidence = 75/100 := by
  have h := fallback_rule_order [] ⟨1/2, "harmful", 3/5⟩ (by norm_num)
  exact ⟨h.2.1, h.2.2.2.2⟩

/-- Counterexample for C3: on `{Vitamin_K_ug: 0, Calcium: 200}` (with a
non-triggering oracle) the code returns confidence 0.75, not 0.65 as
the claim states — the calcium rule sets the confidence to
`max(0.65, 0.75) = 0.75`, never lowering it. -/
theorem fallback_calcium_confidence_cex :
    (get_fallback_prediction [] [("Vitamin_K_ug", 0), ("Calcium", 200)]
        ⟨0, "no effect", 3/5⟩).confidence = 75/100 ∧
    ((75:ℚ)/100 ≠ 65/100) := by
  have hc := fallback_deterministic_char [] [("Vitamin_K_ug", 0), ("Calcium", 200)]
    ⟨0, "no effect", 3/5⟩ (by norm_num)
  rw [show getD [("Vitamin_K_ug", 0), ("Calcium", 200)] "Vitamin_K_ug" 0 = 0
        from rfl,
      show getD [("Vitamin_K_ug", 0), ("Calcium", 200)] "Calcium" 0 = 200
        from rfl,
      if_neg (by norm_num : ¬ (0:ℚ) > 100),
      if_pos (by norm_num : (200:ℚ) > 150)] at hc
  have hconf : (get_fallback_prediction [] [("Vitamin_K_ug", 0), ("Calcium", 200)]
      ⟨0, "no effect", 3/5⟩).confidence = 75/100 := congrArg Prod.snd hc
  exact ⟨hconf, by norm_num⟩

/-- C3 (amended): absent the randomized override, whenever
`Vitamin_K_ug ≤ 100` and `Calcium > 150` the fallback scorer returns
label "possible" with confidence `max(0.65, 0.75) = 0.75`; in
particular `{Vitamin_K_ug: 0, Calcium: 200}` yields
("possible", 0.75). -/
theorem fallback_calcium_branch (drug food : Attrs) (o : RandOracle)
    (h : o.r ≤ 7/10)
    (hvk : ¬ getD food "Vitamin_K_ug" 0 > 100)
    (hca : getD food "Calcium" 0 > 150) :
    (get_fallback_prediction drug food o).effect = "possible" ∧
    (get_fallback_prediction drug food o).confidence = max (65/100) (75/100) ∧
    (get_fallback_prediction drug food o).confidence = 75/100 := by
  have hc := fallback_deterministic_char drug food o h
  rw [if_neg hvk, if_pos hca] at hc
  have hconf : (get_fallback_prediction drug food o).confidence = 75/100 :=
    congrArg Prod.snd hc
  refine ⟨congrArg Prod.fst hc, ?_, hconf⟩
  rw [hconf]
  norm_num

/-- Witness for C3 (amended) at the concrete input of the claim. -/
theorem fallback_calcium_branch_witness :
    (get_fallback_prediction [] [("Vitamin_K_ug", 0), ("Calcium", 200)]
        ⟨1/2, "harmful", 3/5⟩).effect = "possible" ∧
    (get_fallback_prediction [] [("Vitamin_K_ug", 0), ("Calcium", 200)]
        ⟨1/2, "harmful", 3/5⟩).confidence = 75/100 := by
  have h := fallback_calcium_branch [] [("Vitamin_K_ug", 0), ("Calcium", 200)]
    ⟨1/2, "harmful", 3/5⟩ (by norm_num)
    (by rw [show getD [("Vitamin_K_ug", 0), ("Calcium", 200)] "Vitamin_K_ug" 0 = 0
              from rfl]
        norm_num)
    (by rw [show getD [("Vitamin_K_ug", 0), ("Calcium", 200)] "Calcium" 0 = 200
              from rfl]
        norm_num)
  exact ⟨h.1, h.2.2⟩

/-- C7: over all branches of the fallback scorer — with the override
draw constrained to its documented range `[0.60, 0.92)` — the returned
confidence lies in `[0.60, 0.92] ∪ {0.65, 0.68, 0.75}`, hence in
`[0, 1]`. -/
theorem fallback_confidence_range (drug food : Attrs) (o : RandOracle)
    (hc1 : 6/10 ≤ o.conf) (hc2 : o.conf < 92/100) :
    ((6/10 ≤ (get_fallback_prediction drug food o).confidence ∧
      (get_fallback_prediction drug food o).confidence ≤ 92/100) ∨
     (get_fallback_prediction drug food o).confidence = 65/100 ∨
     (get_fallback_prediction drug food o).confidence = 68/100 ∨
     (get_fallback_prediction drug food o).confidence = 75/100) ∧
    0 ≤ (get_fallback_prediction drug food o).confidence ∧
    (get_fallback_prediction drug food o).confidence ≤ 1 := by
  by_cases hr : o.r > 7/10
  · have hcf : (get_fallback_prediction drug food o).confidence = o.conf := by
      simp only [get_fallback_prediction, if_pos hr]
    rw [hcf]
    exact ⟨Or.inl ⟨hc1, le_of_lt hc2⟩, by linarith, by linarith⟩
  · have hc := fallback_deterministic_char drug food o (not_lt.mp hr)
    by_cases hvk : getD food "Vitamin_K_ug" 0 > 100
    · rw [if_pos hvk] at hc
      have hcf : (get_fallback_prediction drug food o).confidence = 68/100 :=
        congrArg Prod.snd hc
      rw [hcf]
      norm_num
    · by_cases hca : getD food "Calcium" 0 > 150
      · rw [if_neg hvk, if_pos hca] at hc
        have hcf : (get_fallback_prediction drug food o).confidence = 75/100 :=
          congrArg Prod.snd hc
        rw [hcf]
        norm_num
      · rw [if_neg hvk, if_neg hca] at hc
        have hcf : (get_fallback_prediction drug food o).confidence = 75/100 :=
          congrArg Prod.snd hc
        rw [hcf]
        norm_num

/-- Witness for C7 with the override triggered (`r = 0.8 > 0.7`) and a
draw 0.9 inside `[0.60, 0.92)`. -/
theorem fallback_confidence_range_witness :
    0 ≤ (get_fallback_prediction [] [] ⟨8/10, "harmful", 9/10⟩).confidence ∧
    (get_fallback_prediction [] [] ⟨8/10, "harmful", 9/10⟩).confidence ≤ 1 :=
  (fallback_confidence_range [] [] ⟨8/10, "harmful", 9/10⟩
    (by norm_num) (by norm_num)).2

/-- The extraction loop returns the (null-defaulted) amount of the
first record entry matching any alias id, and 0 when none matches. -/
theorem extractValue_eq_find (ids : List ℕ) (rec : List FoodNutrient) :
    extractValue ids rec =
      ((rec.find? (fun fn => idMatches fn ids)).map
        (fun fn => fn.amount.getD 0)).getD 0 := by
  induction rec with
  | nil => rfl
  | cons fn rest ih =>
      rw [List.find?_cons]
      cases h : idMatches fn ids with
      | true =>
          simp only [extractValue, h, if_true]
          cases hamt : fn.amount <;> simp [hamt]
      | false =>
          simp only [extractValue, h, Bool.false_eq_true, if_false]
          exact ih

/-- Looking up a `nutrient_map` key in the normalizer output yields
exactly the extraction loop's value for that key's alias list
(the keys of `nutrient_map` are distinct). -/
theorem lookup_extract (rec : List FoodNutrient) :
    ∀ (l : List (String × List ℕ)) (name : String) (ids : List ℕ),
      (name, ids) ∈ l → (l.map Prod.fst).Nodup →
      lookup (l.map (fun p => (p.1, extractValue p.2 rec))) name
        = some (extractValue ids rec) := by
  intro l
  induction l with
  | nil =>
      intro name ids hmem _
      simp at hmem
  | cons hd tl ih =>
      intro name ids hmem hnodup
      rcases List.mem_cons.mp hmem with heq | htl
      · rw [← heq]
        simp [lookup, List.find?]
      · have hname : name ∈ tl.map Prod.fst :=
          List.mem_map.mpr ⟨(name, ids), htl, rfl⟩
        rw [List.map_cons] at hnodup
        rcases List.nodup_cons.mp hnodup with ⟨hnotmem, htlnodup⟩
        have hne : (hd.1 == name) = false := by
          simp only [beq_eq_false_iff_ne, ne_eq]
          intro hcontra
          exact hnotmem (hcontra ▸ hname)
        simp only [List.map_cons, lookup, List.find?]
        rw [hne]
        exact ih name ids htl htlnodup

/-- Counterexample for C4: the record holds both Vitamin_A aliases,
alias 1104 first with amount 5 and alias 1106 (the first alias in the
declared priority list [1106, 1104]) second with amount 7; the code
returns 5 — the first matching record entry wins, not the first alias
in priority order, which would give 7. -/
theorem alias_priority_cex :
    lookup (extract_comprehensive_nutrients
        [⟨some 1104, some 5⟩, ⟨some 1106, some 7⟩]) "Vitamin_A_ug" = some 5 ∧
    extractValuePriority
        [⟨some 1104, some 5⟩, ⟨some 1106, some 7⟩] [1106, 1104] = 7 ∧
    (5:ℚ) ≠ 7 := by
  refine ⟨rfl, rfl, by norm_num⟩

/-- C4 (amended): for every raw record, the normalizer assigns each
expected attribute the (null-defaulted) amount of the first record
entry whose id matches any of that attribute's alias ids — record
order decides among aliases, not the declared priority order — and it
never sums multiple matches. -/
theorem extract_first_matching_entry (rec : List FoodNutrient)
    (name : String) (ids : List ℕ) (hmem : (name, ids) ∈ nutrient_map) :
    lookup (extract_comprehensive_nutrients rec) name =
      some (((rec.find? (fun fn => idMatches fn ids)).map
              (fun fn => fn.amount.getD 0)).getD 0) := by
  rw [← extractValue_eq_find]
  exact lookup_extract rec nutrient_map name ids hmem (by decide)

/-- Witness for C4 (amended): on the counterexample record the first
matching entry for "Vitamin_A_ug" is the alias-1104 one with amount 5. -/
theorem extract_first_matching_entry_witness :
    lookup (extract_comprehensive_nutrients
        [⟨some 1104, some 5⟩, ⟨some 1106, some 7⟩]) "Vitamin_A_ug" = some 5 :=
  extract_first_matching_entry [⟨some 1104, some 5⟩, ⟨some 1106, some 7⟩]
    "Vitamin_A_ug" [1106, 1104] (by decide)

/-- Counterexample for C5: for "Fat" (alias 1004) the record holds a
null-amount entry first and a non-null entry (amount 5) second; the
code returns 0 even though not every matching entry is null, because
the loop breaks at the first match regardless of nullness. -/
theorem null_short_circuit_cex :
    lookup (extract_comprehensive_nutrients
        [⟨some 1004, none⟩, ⟨some 1004, some 5⟩]) "Fat" = some 0 ∧
    ((0:ℚ) ≠ 5) := by
  exact ⟨rfl, by norm_num⟩

/-- C5 (amended): for every alias list and record, the extraction
returns 0.0 when no record entry matches any alias; when the first
matching entry carries a null amount it returns 0.0 without consulting
later matches; and when the first matching entry carries amount `a` it
returns `a`. -/
theorem extract_null_default (ids : List ℕ) (rec : List FoodNutrient) :
    (rec.find? (fun fn => idMatches fn ids) = none →
      extractValue ids rec = 0) ∧
    (∀ fn, rec.find? (fun fn => idMatches fn ids) = some fn →
      fn.amount = none → extractValue ids rec = 0) ∧
    (∀ fn a, rec.find? (fun fn => idMatches fn ids) = some fn →
      fn.amount = some a → extractValue ids rec = a) := by
  refine ⟨fun hnone => ?_, fun fn hfind hnull => ?_, fun fn a hfind hamt => ?_⟩
  · rw [extractValue_eq_find, hnone]
    rfl
  · rw [extractValue_eq_find, hfind]
    simp [hnull]
  · rw [extractValue_eq_find, hfind]
    simp [hamt]

/-- Witness for C5 (amended): on the counterexample record the first
matching entry for alias list [1004] is the null one, and the
extraction returns 0. -/
theorem extract_null_default_witness :
    extractValue [1004] [⟨some 1004, none⟩, ⟨some 1004, some 5⟩] = 0 :=
  (extract_null_default [1004] [⟨some 1004, none⟩, ⟨some 1004, some 5⟩]).2.1
    ⟨some 1004, none⟩ (by decide) rfl

/-- C8: for every raw record the normalizer output binds exactly the
21 expected nutrient names — 3 macronutrients, 8 vitamins, 6 minerals,
4 fat-breakdown/cholesterol names, in that order — and any attribute
none of whose aliases matches the record is bound to the default 0.0. -/
theorem normalizer_output_complete (rec : List FoodNutrient) :
    (extract_comprehensive_nutrients rec).map Prod.fst
        = macronutrients ++ vitamins ++ minerals ++ fat_breakdown ∧
    macronutrients.length = 3 ∧ vitamins.length = 8 ∧
    minerals.length = 6 ∧ fat_breakdown.length = 4 ∧
    (extract_comprehensive_nutrients rec).length = 21 ∧
    (∀ name ids, (name, ids) ∈ nutrient_map →
      (∀ fn ∈ rec, idMatches fn ids = false) →
      lookup (extract_comprehensive_nutrients rec) name = some 0) := by
  refine ⟨rfl, rfl, rfl, rfl, rfl, rfl, fun name ids hmem hnomatch => ?_⟩
  have hfind : rec.find? (fun fn => idMatches fn ids) = none := by
    rw [List.find?_eq_none]
    intro fn hfn
    simp [hnomatch fn hfn]
  rw [extract_first_matching_entry rec name ids hmem, hfind]
  rfl

/-- Witness for C8: a record whose only entry has an id matching no
alias leaves "Fat" bound to the default 0. -/
theorem normalizer_output_complete_witness :
    lookup (extract_comprehensive_nutrients [⟨some 9999, some 3⟩]) "Fat"
      = some 0 :=
  (normalizer_output_complete [⟨some 9999, some 3⟩]).2.2.2.2.2.2
    "Fat" [1004] (by decide) (by decide)

/-- C6: whenever the bundle is incomplete (model or label decoder
missing), or the model invocation raises, or the label decoder
invocation raises, `predict_interaction` returns the fallback
prediction instead of propagating the error. -/
theorem classifier_fallback_on_failure (b : ClassifierBundle)
    (drug food : Attrs) (o : RandOracle) :
    ((b.xgb_model = none ∨ b.label_encoder = none) →
      predict_interaction b drug food o = get_fallback_prediction drug food o) ∧
    (∀ model enc msg, b.xgb_model = some model → b.label_encoder = some enc →
      model (buildFeatures drug food (featureOrderOf b drug food))
          = Except.error msg →
      predict_interaction b drug food o = get_fallback_prediction drug food o) ∧
    (∀ model enc idx conf msg,
      b.xgb_model = some model → b.label_encoder = some enc →
      model (buildFeatures drug food (featureOrderOf b drug food))
          = Except.ok (idx, conf) →
      enc idx = Except.error msg →
      predict_interaction b drug food o = get_fallback_prediction drug food o) := by
  refine ⟨?_, ?_, ?_⟩
  · rintro (hm | he)
    · simp [predict_interaction, hm]
    · cases hm : b.xgb_model with
      | none => simp [predict_interaction, hm]
      | some model => simp [predict_interaction, hm, he]
  · intro model enc msg hm he herr
    simp [predict_interaction, hm, he, herr]
  · intro model enc idx conf msg hm he hok herr
    simp [predict_interaction, hm, he, hok, herr]

/-- Witness for C6: a bundle with a model but no label decoder routes
the request to the fallback scorer. -/
theorem classifier_fallback_on_failure_witness :
    predict_interaction
        ⟨some (fun _ => Except.ok (0, 1/2)), none, none⟩ [] [] ⟨0, "e", 0⟩
      = get_fallback_prediction [] [] ⟨0, "e", 0⟩ :=
  (classifier_fallback_on_failure
      ⟨some (fun _ => Except.ok (0, 1/2)), none, none⟩ [] [] ⟨0, "e", 0⟩).1
    (Or.inr rfl)

/-- C9: the Explanation Generator is pure (identical inputs give
identical strings, and the output depends on the confidence only
through its two-decimal rendering); every unrecognized label yields
the generic template; and the five closed-set labels have pairwise
distinct templates (shown at confidence 0.5). -/
theorem explanation_pure_templates :
    (∀ effect confidence, get_explanation effect confidence
        = get_explanation effect confidence) ∧
    (∀ effect c₁ c₂, fmt2 c₁ = fmt2 c₂ →
      get_explanation effect c₁ = get_explanation effect c₂) ∧
    (∀ effect confidence,
      effect ∉ ["harmful", "negative", "no effect", "positive", "possible"] →
      get_explanation effect confidence =
        "Interaction analysis completed with " ++ fmt2 confidence
          ++ " confidence.") ∧
    List.Pairwise (fun a b => get_explanation a (1/2) ≠ get_explanation b (1/2))
      ["harmful", "negative", "no effect", "positive", "possible"] := by
  refine ⟨fun _ _ => rfl, ?_, ?_, ?_⟩
  · intro effect c₁ c₂ h
    simp only [get_explanation, h]
  · intro effect confidence hmem
    simp only [List.mem_cons, List.not_mem_nil, or_false, not_or] at hmem
    obtain ⟨h1, h2, h3, h4, h5⟩ := hmem
    simp [get_explanation, h1, h2, h3, h4, h5]
  · decide

/-- Witness for C9: the unrecognized label "unknown" yields the
generic template at confidence 0.5. -/
theorem explanation_pure_templates_witness :
    get_explanation "unknown" (1/2)
      = "Interaction analysis completed with " ++ fmt2 (1/2)
          ++ " confidence." :=
  explanation_pure_templates.2.2.1 "unknown" (1/2) (by decide)

/-- C10: every result of `predict_interaction` and of
`get_fallback_prediction` — including when the randomized override
replaces the deterministic label and confidence — carries an
explanation equal to the Explanation Generator applied to that same
result's effect and confidence. -/
theorem explanation_consistent (b : ClassifierBundle) (drug food : Attrs)
    (o : RandOracle) :
    (get_fallback_prediction drug food o).explanation
      = get_explanation (get_fallback_prediction drug food o).effect
          (get_fallback_prediction drug food o).confidence ∧
    (predict_interaction b drug food o).explanation
      = get_explanation (predict_interaction b drug food o).effect
          (predict_interaction b drug food o).confidence := by
  have hfb : (get_fallback_prediction drug food o).explanation
      = get_explanation (get_fallback_prediction drug food o).effect
          (get_fallback_prediction drug food o).confidence := rfl
  refine ⟨hfb, ?_⟩
  cases hm : b.xgb_model with
  | none =>
      simp only [predict_interaction, hm]
      exact hfb
  | some model =>
      cases he : b.label_encoder with
      | none =>
          simp only [predict_interaction, hm, he]
          exact hfb
      | some enc =>
          cases hres : model (buildFeatures drug food (featureOrderOf b drug food)) with
          | error msg =>
              simp only [predict_interaction, hm, he, hres]
              exact hfb
          | ok p =>
              obtain ⟨idx, conf⟩ := p
              cases hdec : enc idx with
              | error msg =>
                  simp only [predict_interaction, hm, he, hres, hdec]
                  exact hfb
              | ok eff =>
                  simp only [predict_interaction, hm, he, hres, hdec]

end FoodDrug
